import Mathlib

/-!
# foolgo `server.go`: construction, lifecycle, restart handoff and drain watchdog

A shallow embedding of `src/server.go`.

* Go `int` is taken to be 64 bits wide (the file uses `syscall.Kill`, so a
  Unix target) and is represented by `Int`; the only arithmetic that can leave
  the 64-bit range is `time.Duration(n) * time.Second`, which is wrapped
  explicitly by `wrap64`. Comparisons and assignments never overflow.
* Package-level variables (`serverStat`, `isForking`, `connWg`, `CompressType`,
  `CompressMinSize`, `RunMod`) are fields of explicit state records.
* Collaborators that live outside `server.go` (`NewListener`, `NewTlsListener`,
  `NewApplication`, the constant `COMPRESS_GZIP`, `listener.Close`,
  `cmd.Start`) are parameters of the functions that call them.
* A Go `error` is represented by its message.
* Goroutines are interleaved at the level of statements; reads and writes of
  the package variables are taken to be atomic and sequentially consistent.
  The functions `shutDown`, `forkServer` and `signalDispatch` give the effect of
  a call that runs without interruption; inside the process (`Machine`) the
  statements of the same calls are separate actions.
* `connWg` behaves as Go's `sync.WaitGroup`: `Add` stores the new counter
  before it panics on a negative value, and `Wait` reads the counter again
  after wake-up and panics unless it is zero. A panic that the panicking
  goroutine does not recover ends the process.
-/

namespace Foolgo

/-! ## Constants and data model -/

def STATE_INIT : Int := 1
def STATE_RUNNING : Int := 2
def STATE_TERMINATE : Int := 3
def STATE_SHUTTING_DOWN : Int := 4

/-- The struct `HttpServerConfig` (lines 36-55). -/
structure HttpServerConfig where
  RunMod : String
  Root : String
  ViewPath : String
  Addr : String
  AccessLog : String
  ErrorLog : String
  RunLog : String
  Compress : Int
  CompressMin : Int
  ReadTimeout : Int
  WriteTimeout : Int
  MaxHeaderByte : Int
  HttpErrorHtml : List (Int × String)
  SslOn : Bool
  SslCert : String
  SslCertKey : String
  Pid : String
  deriving DecidableEq, Repr

/-- Handle of a `*FoolListener` (the raw listening socket made by `NewListener`). -/
structure FoolListener where
  fd : Nat
  deriving DecidableEq, Repr

/-- Handle of the value produced by `NewTlsListener`. -/
structure TlsListener where
  id : Nat
  deriving DecidableEq, Repr

/-- Handle of an `*Application`. -/
structure Application where
  id : Nat
  deriving DecidableEq, Repr

/-- The interface value stored in `FoolServer.listener`: its dynamic value is
either the raw `*FoolListener` (line 126) or what `NewTlsListener` returned
(line 120). -/
inductive NetListener where
  | raw (l : FoolListener)
  | tls (t : TlsListener)
  deriving DecidableEq, Repr

/-- The fields of the embedded `*http.Server` that `NewServer` fills in
(lines 135-140). Durations are in nanoseconds. -/
structure HttpServer where
  Addr : String
  ReadTimeout : Int
  WriteTimeout : Int
  MaxHeaderBytes : Int
  Handler : Application
  deriving DecidableEq, Repr

/-- The struct `FoolServer` (lines 57-63). -/
structure FoolServer where
  Server : HttpServer
  listener : NetListener
  listenerPtr : FoolListener
  App : Application
  config : HttpServerConfig
  deriving DecidableEq, Repr

/-- The package-level variables written by `NewServer`. -/
structure Globals where
  CompressType : Int
  CompressMinSize : Int
  RunMod : String
  deriving DecidableEq, Repr

/-- What `NewServer` consumes from the rest of the package. -/
structure Collaborators where
  COMPRESS_GZIP : Int
  NewListener : String → Except String FoolListener
  NewTlsListener : FoolListener → String → String → Except String TlsListener
  NewApplication : HttpServerConfig → Except String Application

/-! ## `time.Duration` arithmetic -/

/-- Two's-complement wrap of an integer into the `int64` range. -/
def wrap64 (x : Int) : Int := (x + 2 ^ 63) % 2 ^ 64 - 2 ^ 63

/-- The constant `time.Second`, in nanoseconds. -/
def Second : Int := 1000000000

/-- The expression `time.Duration(n) * time.Second` (an `int64` product). -/
def secondsToDuration (n : Int) : Int := wrap64 (n * Second)

/-- The largest number of seconds whose nanosecond count fits in an `int64`. -/
def maxSeconds : Int := 9223372036

/-! ## `NewServer` (lines 75-143) -/

def errAddrEmpty : String := "server Addr can't be empty...[ip:port]"
def errPidEmpty : String := "foolgo.HttpServerConfig.Pid can't be empty"
def errCompressInvalid : String :=
  "Comress value invalid.[COMPRESS_CLOSE|COMPRESS_GZIP|COMPRESS_FLATE]"

/-- Lines 82-90: the three defaulting assignments made through the config pointer. -/
def applyDefaults (c : HttpServerConfig) : HttpServerConfig :=
  let c1 := if c.ReadTimeout ≤ 0 then { c with ReadTimeout := 30 } else c
  let c2 := if c1.WriteTimeout ≤ 0 then { c1 with WriteTimeout := 30 } else c1
  if c2.MaxHeaderByte ≤ 0 then { c2 with MaxHeaderByte := 2 ^ 20 } else c2

/-- Lines 97-109: the assignments to `CompressType`, `CompressMinSize` and `RunMod`. -/
def setGlobals (k : Collaborators) (c : HttpServerConfig) (g : Globals) : Globals :=
  let g1 := if c.Compress = 0 then { g with CompressType := k.COMPRESS_GZIP }
            else { g with CompressType := c.Compress }
  let g2 := if c.CompressMin = 0 then { g1 with CompressMinSize := 200 }
            else { g1 with CompressMinSize := c.CompressMin }
  { g2 with RunMod := c.RunMod }

/-- The outcome of a call of `NewServer`: the returned pair (`.ok srv` for
`(srv, nil)`, `.error e` for `(nil, e)`), the package variables and the
pointed-to configuration as the call leaves them. -/
structure NewServerResult where
  ret : Except String FoolServer
  globals : Globals
  config : HttpServerConfig

/-- Lines 113-142, after validation has passed: `c` is the defaulted configuration. -/
def buildServer (k : Collaborators) (c : HttpServerConfig) : Except String FoolServer :=
  match k.NewListener c.Addr with
  | .error e => .error e
  | .ok l =>
    let tlsOn : Bool := c.SslOn == true && c.SslCert != "" && c.SslCertKey != ""
    let lis : Except String NetListener :=
      if tlsOn then
        match k.NewTlsListener l c.SslCert c.SslCertKey with
        | .error e => .error e
        | .ok t => .ok (NetListener.tls t)
      else .ok (NetListener.raw l)
    match lis with
    | .error e => .error e
    | .ok ln =>
      match k.NewApplication c with
      | .error e => .error e
      | .ok app =>
        .ok { Server := { Addr := c.Addr
                          ReadTimeout := secondsToDuration c.ReadTimeout
                          WriteTimeout := secondsToDuration c.WriteTimeout
                          MaxHeaderBytes := c.MaxHeaderByte
                          Handler := app }
              listener := ln
              listenerPtr := l
              App := app
              config := c }

/-- The function `NewServer`. -/
def NewServer (k : Collaborators) (g : Globals) (c : HttpServerConfig) : NewServerResult :=
  if c.Addr = "" then
    { ret := .error errAddrEmpty, globals := g, config := c }
  else
    let c := applyDefaults c
    if c.Pid = "" then
      { ret := .error errPidEmpty, globals := g, config := c }
    else if c.Compress > 2 ∨ c.Compress < -1 then
      { ret := .error errCompressInvalid, globals := g, config := c }
    else
      { ret := buildServer k c, globals := setGlobals k c g, config := c }

/-! ## Process-wide state of a running server -/

/-- The package-level variables used after construction, together with a record
of the externally visible actions taken so far. `wdDone` is a ghost counter of
the `connWg.Done()` calls made by `serverTimeout`. -/
structure Proc where
  serverStat : Int
  isForking : Bool
  connWg : Int
  closed : List NetListener
  watchdogs : Nat
  exported : List FoolListener
  spawned : List (String × List String)
  wdDone : Nat
  log : List String
  deriving DecidableEq, Repr

/-- The package variables when the program starts: Go zero values, then
`init()` (lines 65-72), which only touches `runLock`, the flag set and
`isForking`. -/
def Proc.initial : Proc :=
  { serverStat := 0, isForking := false, connWg := 0, closed := [], watchdogs := 0,
    exported := [], spawned := [], wdDone := 0, log := [] }

/-- The method `shutDown` (lines 204-218). `closeErr` is what
`srv.listener.Close()` returns (`none` for `nil`). -/
def shutDown (srv : FoolServer) (closeErr : Option String) (p : Proc) : Proc :=
  if p.serverStat ≠ STATE_RUNNING then p
  else
    { p with
      serverStat := STATE_SHUTTING_DOWN
      watchdogs := p.watchdogs + 1
      closed := p.closed ++ [srv.listener]
      log := p.log ++ [match closeErr with
                       | some e => "[Error] Listener.Close() error:" ++ e
                       | none => "[Notice] Listener closed."] }

/-- Lines 272-281 of `forkServer`: the loop that builds `args` from `os.Args`. -/
def successorArgs (osArgs : List String) : List String :=
  let args : List String :=
    if osArgs.length > 1 then
      (osArgs.drop 1).foldl (fun acc arg => if arg = "-reload" then acc else acc ++ [arg]) []
    else []
  args ++ ["-reload"]

/-- The method `forkServer` (lines 256-294), executed under `runLock`.
`startErr` is what `cmd.Start()` returns. The result is `none` when the body
panics at `os.Args[0]` because `os.Args` is empty. -/
def forkServer (srv : FoolServer) (osArgs : List String) (startErr : Option String)
    (p : Proc) : Option Proc :=
  if p.isForking then some p
  else
    let p1 := { p with isForking := true, exported := p.exported ++ [srv.listenerPtr] }
    match osArgs with
    | [] => none
    | path :: _ =>
      let p2 := { p1 with spawned := p1.spawned ++ [(path, successorArgs osArgs)] }
      match startErr with
      | some e =>
        some { p2 with log := p2.log ++ ["[Error] Restart: Failed to launch, error: " ++ e] }
      | none => some p2

/-- A sequence of restart triggers handled one after the other; the list gives
the outcome of `cmd.Start()` for each trigger. -/
def forkServerMany (srv : FoolServer) (osArgs : List String) :
    List (Option String) → Proc → Option Proc
  | [], p => some p
  | e :: es, p =>
    match forkServer srv osArgs e p with
    | none => none
    | some p1 => forkServerMany srv osArgs es p1

/-- Signals as seen by `signalHandle`; `other` stands for the `default` case. -/
inductive Signal where
  | SIGHUP
  | SIGINT
  | SIGQUIT
  | SIGTERM
  | other (n : Nat)
  deriving DecidableEq, Repr

/-- One iteration of the loop in `signalHandle` (lines 187-201) for the
received signal `sig`. -/
def signalDispatch (srv : FoolServer) (osArgs : List String) (sig : Signal)
    (closeErr startErr : Option String) (p : Proc) : Option Proc :=
  match sig with
  | .SIGHUP => forkServer srv osArgs startErr p
  | .SIGINT => some (shutDown srv closeErr p)
  | .SIGQUIT => some (shutDown srv closeErr p)
  | .SIGTERM => some (shutDown srv closeErr p)
  | .other _ => some p

/-! ## Goroutines: `Run`, the signal handler, the connection counter and the watchdog

Each action of a goroutine contains at most one access to the modelled package
variables or to the log; statements that touch neither are merged into the
action that follows them. -/

/-- Where the goroutine executing `Run` (lines 150-180) stands.
`started`: lines 151-155 done, line 157 next. `atChild`: line 160 next.
`atPid`: `createPid` (line 169) next. `atExit`: `os.Exit(1)` (line 249) next.
`atStartLog`: line 171 next. `serving`: inside `srv.Serve` (line 173).
`atWaitLog`: `Serve` has returned, line 175 next. `atWait`: `connWg.Wait()`
(line 176) next. `blocked`: inside `Wait`, parked. `released`: inside `Wait`,
woken up, with the check that `Wait` makes after wake-up next. `woken`: `Wait`
has returned, line 177 next. `atEndLog`: line 178 next. `finished`: `Run` has
returned. -/
inductive RunPc where
  | idle
  | started
  | atChild
  | atPid
  | atExit
  | atStartLog
  | serving
  | atWaitLog
  | atWait
  | blocked
  | released
  | woken
  | atEndLog
  | finished
  deriving DecidableEq, Repr

/-- Where a goroutine executing `serverTimeout` (lines 222-239) stands.
`started`: line 228 next. `sleeping`: in `time.Sleep`. `loopHead`: line 233 next.
`callDone`: line 236 next. `atForcedLog`: left the loop by `break`, line 238
next. `recovering`: `Done` panicked, the deferred function (lines 224-225) is
next. `returnedEarly`: left at line 229. `forced`: returned after line 238.
`recovered`: returned after the deferred function logged line 225. -/
inductive WdPc where
  | started
  | sleeping
  | loopHead
  | callDone
  | atForcedLog
  | recovering
  | returnedEarly
  | forced
  | recovered
  deriving DecidableEq, Repr

/-- Where the goroutine executing `signalHandle` (lines 183-202) stands.
`waiting`: at the receive of line 188. `sdAssign`: in `shutDown`, the guard of
line 205 passed, line 208 next. `sdSpawn`: line 210 next. `sdClose`: line 212
next. `sdLog e`: `Close` returned `e`, lines 213-217 next. `fkLog e`: in
`forkServer`, `cmd.Start()` returned the error `e`, line 290 next. -/
inductive HandlerPc where
  | waiting
  | sdAssign
  | sdSpawn
  | sdClose
  | sdLog (closeErr : Option String)
  | fkLog (startErr : String)
  deriving DecidableEq, Repr

/-- How the process ended: `os.Exit(code)`, or a panic that no deferred
function of the panicking goroutine recovered. -/
inductive ProcessEnd where
  | osExit (code : Nat)
  | panic (msg : String)
  deriving DecidableEq, Repr

/-- The package variables and the position of `Run`. `Run` is the only caller
of `connWg.Wait()`: the counter has a waiter exactly when `Run` is `blocked`. -/
structure Sys where
  proc : Proc
  run : RunPc
  deriving DecidableEq, Repr

/-- What `Run` reads from its environment: the flag `isChild`, the parent
process id, whether `os.FindProcess` fails (line 163), and whether `os.Stat`
reports the pid file as missing (line 247). -/
structure RunEnv where
  isChild : Bool
  parent : Nat
  findProcessFails : Bool
  pidMissing : Bool
  deriving DecidableEq, Repr

def panicNegative : String := "sync: negative WaitGroup counter"
def panicMisuse : String := "sync: WaitGroup misuse: Add called concurrently with Wait"
def panicReused : String := "sync: WaitGroup is reused before previous Wait has returned"
def panicIndex : String := "runtime error: index out of range [0] with length 0"

/-- The call `Add(delta)` on `connWg`, with the behaviour of Go's
`sync.WaitGroup`: the new value of the counter is stored first; when the counter
has gone negative the call panics with the new value left in place; it also
panics when a positive `delta` meets a waiter on a counter that was zero; when
the counter has reached zero the waiter is woken up. The second component is
the panic message. -/
def wgAdd (delta : Int) (s : Sys) : Sys × Option String :=
  let v := s.proc.connWg + delta
  let s1 : Sys := { s with proc := { s.proc with connWg := v } }
  if v < 0 then (s1, some panicNegative)
  else if s.run = RunPc.blocked ∧ 0 < delta ∧ v = delta then (s1, some panicMisuse)
  else if v = 0 ∧ s.run = RunPc.blocked then ({ s1 with run := RunPc.released }, none)
  else (s1, none)

/-- `connWg.Done()`, which is `Add(-1)`. -/
def wgDone (s : Sys) : Sys × Option String := wgAdd (-1) s

/-- Append a line to the run log. -/
def Sys.logLine (s : Sys) (line : String) : Sys :=
  { s with proc := { s.proc with log := s.proc.log ++ [line] } }

/-- One action of the goroutine executing `Run`; the second component tells
whether the action ends the process. The return of `srv.Serve` (an `Accept`
error) is an event of the environment and may happen whenever `Run` is
`serving`. `connWg.Wait()` returns at once on a zero counter and parks
otherwise; after wake-up it reads the counter again and panics unless it is
zero, and `Run` has no deferred function. Template compilation, the write of
the pid file and the signal sent to the parent touch none of the modelled
variables. -/
def runStep (srv : FoolServer) (env : RunEnv) (s : Sys) : Sys × Option ProcessEnd :=
  match s.run with
  | .idle => ({ s with run := .started }, none)
  | .started =>
    ({ proc := { s.proc with serverStat := STATE_RUNNING }, run := .atChild }, none)
  | .atChild =>
    if env.isChild then
      if env.findProcessFails then ({ s with run := .finished }, none)
      else
        ({ s.logLine ("[Notice] Killing parent pid: " ++ toString env.parent) with
            run := .atPid }, none)
    else ({ s with run := .atPid }, none)
  | .atPid =>
    if env.pidMissing then
      ({ s.logLine ("[Warning] Can't create pid file " ++ srv.config.Pid) with
          run := .atExit }, none)
    else ({ s with run := .atStartLog }, none)
  | .atExit => (s, some (ProcessEnd.osExit 1))
  | .atStartLog => ({ s.logLine "[Notice] Server start." with run := .serving }, none)
  | .serving => ({ s with run := .atWaitLog }, none)
  | .atWaitLog =>
    ({ s.logLine "[Notice] Waiting for connections to finish..." with run := .atWait }, none)
  | .atWait =>
    if s.proc.connWg = 0 then ({ s with run := .woken }, none)
    else ({ s with run := .blocked }, none)
  | .blocked => (s, none)
  | .released =>
    if s.proc.connWg ≠ 0 then (s, some (ProcessEnd.panic panicReused))
    else ({ s with run := .woken }, none)
  | .woken =>
    ({ proc := { s.proc with serverStat := STATE_TERMINATE }, run := .atEndLog }, none)
  | .atEndLog => ({ s.logLine "[Notice] Server shuttdown." with run := .finished }, none)
  | .finished => (s, none)

/-- One action of a goroutine executing `serverTimeout`, standing at `pc`. A
panic of `Done` is recovered by the deferred function, so no action of this
goroutine ends the process. -/
def serverTimeoutStep (pc : WdPc) (s : Sys) : WdPc × Sys :=
  match pc with
  | .started =>
    if s.proc.serverStat ≠ STATE_SHUTTING_DOWN then (.returnedEarly, s) else (.sleeping, s)
  | .sleeping => (.loopHead, s)
  | .loopHead => if s.proc.serverStat = STATE_TERMINATE then (.atForcedLog, s) else (.callDone, s)
  | .callDone =>
    let s1 : Sys := { s with proc := { s.proc with wdDone := s.proc.wdDone + 1 } }
    let r := wgDone s1
    match r.2 with
    | some _ => (.recovering, r.1)
    | none => (.loopHead, r.1)
  | .atForcedLog => (.forced, s.logLine "[Notice] Forcefully shutting down parent")
  | .recovering => (.recovered, s.logLine "[Notice] WaitGroup at 0")
  | .returnedEarly => (.returnedEarly, s)
  | .forced => (.forced, s)
  | .recovered => (.recovered, s)

/-! ## The whole process as a labelled transition system -/

/-- The process: package variables and `Run`, the signal handler, the watchdog
goroutines created so far (one per executed `go srv.serverTimeout()`), and how
the process ended, if it has. -/
structure Machine where
  sys : Sys
  handler : HandlerPc
  wds : List WdPc
  ended : Option ProcessEnd
  deriving DecidableEq, Repr

/-- The actions of the process. `run` is the next action of `Run`. `signal` is
the receipt of a signal by `signalHandle` up to the first access it leads to:
the guard of `shutDown` (line 205), or the body of `forkServer` under `runLock`
up to `cmd.Start()`, whose result is `startErr`. `handler` is the next
statement of the call the handler is in; `closeErr` is what `Close` returns if
that statement is line 212. `connAdd` and `connDone` are the `connWg.Add(1)`
and `connWg.Done()` calls made by the request-serving code. `watchdog i` is the
next action of the `i`-th watchdog goroutine. -/
inductive Label where
  | run (env : RunEnv)
  | signal (sig : Signal) (startErr : Option String)
  | handler (closeErr : Option String)
  | connAdd
  | connDone
  | watchdog (i : Nat)
  deriving DecidableEq, Repr

/-- The process before `Run` is called, with `serverStat` holding `v`. -/
def Machine.startingAt (v : Int) : Machine :=
  { sys := { proc := { Proc.initial with serverStat := v }, run := .idle }
    handler := .waiting, wds := [], ended := none }

/-- The process as the program really starts it. -/
def Machine.initial : Machine := Machine.startingAt Proc.initial.serverStat

/-- The value of `serverStat`. -/
def Machine.stat (m : Machine) : Int := m.sys.proc.serverStat

/-- The receipt of a signal by the handler standing at line 188. -/
def Machine.receive (srv : FoolServer) (osArgs : List String) (sig : Signal)
    (startErr : Option String) (m : Machine) : Machine :=
  let guard : Machine :=
    if m.sys.proc.serverStat ≠ STATE_RUNNING then m else { m with handler := .sdAssign }
  match sig with
  | .SIGHUP =>
    match forkServer srv osArgs none m.sys.proc with
    | none =>
      { m with
        sys := { m.sys with proc := { m.sys.proc with
          isForking := true, exported := m.sys.proc.exported ++ [srv.listenerPtr] } }
        ended := some (ProcessEnd.panic panicIndex) }
    | some p =>
      { m with
        sys := { m.sys with proc := p }
        handler :=
          match startErr with
          | some e => if m.sys.proc.isForking then .waiting else .fkLog e
          | none => .waiting }
  | .SIGINT => guard
  | .SIGQUIT => guard
  | .SIGTERM => guard
  | .other _ => m

/-- The next statement of the call the handler is in; `none` at line 188. -/
def Machine.handlerStep (srv : FoolServer) (closeErr : Option String) (m : Machine) :
    Option Machine :=
  match m.handler with
  | .waiting => none
  | .sdAssign =>
    some { m with
      sys := { m.sys with proc := { m.sys.proc with serverStat := STATE_SHUTTING_DOWN } }
      handler := .sdSpawn }
  | .sdSpawn =>
    some { m with
      sys := { m.sys with proc := { m.sys.proc with watchdogs := m.sys.proc.watchdogs + 1 } }
      wds := m.wds ++ [WdPc.started]
      handler := .sdClose }
  | .sdClose =>
    some { m with
      sys := { m.sys with proc := { m.sys.proc with
        closed := m.sys.proc.closed ++ [srv.listener] } }
      handler := .sdLog closeErr }
  | .sdLog e =>
    some { m with
      sys := m.sys.logLine (match e with
                            | some e => "[Error] Listener.Close() error:" ++ e
                            | none => "[Notice] Listener closed.")
      handler := .waiting }
  | .fkLog e =>
    some { m with
      sys := m.sys.logLine ("[Error] Restart: Failed to launch, error: " ++ e)
      handler := .waiting }

/-- One action of the process; `none` when the action is not enabled or the
process has ended. Signals are received once `Run` has started `signalHandle`
(line 155) and the handler is back at line 188. A panic of `Add` or `Done` in
the request-serving code is handled outside `server.go`; the step keeps the
updated counter. -/
def Machine.step (srv : FoolServer) (osArgs : List String) (l : Label) (m : Machine) :
    Option Machine :=
  if m.ended.isSome then none
  else
    match l with
    | .run env =>
      let r := runStep srv env m.sys
      some { m with sys := r.1, ended := r.2 }
    | .signal sig startErr =>
      if m.sys.run = RunPc.idle ∨ m.handler ≠ HandlerPc.waiting then none
      else some (Machine.receive srv osArgs sig startErr m)
    | .handler closeErr => Machine.handlerStep srv closeErr m
    | .connAdd => some { m with sys := (wgAdd 1 m.sys).1 }
    | .connDone => some { m with sys := (wgDone m.sys).1 }
    | .watchdog i =>
      match m.wds[i]? with
      | none => none
      | some pc =>
        let r := serverTimeoutStep pc m.sys
        some { m with sys := r.2, wds := m.wds.set i r.1 }

/-- A run of the process along a list of actions. -/
def Machine.exec (srv : FoolServer) (osArgs : List String) :
    List Label → Machine → Option Machine
  | [], m => some m
  | l :: ls, m =>
    match Machine.step srv osArgs l m with
    | none => none
    | some m1 => Machine.exec srv osArgs ls m1

/-! ## Predicates used in the statements -/

/-- The part of `Run` a position belongs to: `0` before the assignment of line
157, `2` after the assignment of line 177 or after `Run` has returned, `1` in
between. -/
def RunPc.phase : RunPc → Nat
  | .idle => 0
  | .started => 0
  | .atEndLog => 2
  | .finished => 2
  | _ => 1

/-- The values of `serverStat` that are compatible with a phase of `Run` and a
position of the handler, when `v0` is the value held before `Run` writes it. -/
def LifeInv (v0 : Int) (ph : Nat) (h : HandlerPc) (a : Int) : Prop :=
  (ph = 0 ∧ a = v0 ∧ h ≠ HandlerPc.sdAssign) ∨
  (ph = 1 ∧ (a = STATE_RUNNING ∨ (a = STATE_SHUTTING_DOWN ∧ h ≠ HandlerPc.sdAssign))) ∨
  (ph = 2 ∧ (a = STATE_RUNNING ∨ (a = STATE_SHUTTING_DOWN ∧ h ≠ HandlerPc.sdAssign) ∨
    a = STATE_TERMINATE))

/-- The changes of `serverStat` from `a` to `b` named in the statement of the
lifecycle, when `v0` is the value held before `Run` writes it. -/
def Allowed (v0 a b : Int) : Prop :=
  a = b ∨ (a = v0 ∧ b = STATE_RUNNING) ∨ (a = STATE_RUNNING ∧ b = STATE_SHUTTING_DOWN) ∨
    (a = STATE_SHUTTING_DOWN ∧ b = STATE_TERMINATE) ∨
    (a = STATE_RUNNING ∧ b = STATE_TERMINATE)

/-! ## Sample inputs -/

def sampleCollaborators : Collaborators :=
  { COMPRESS_GZIP := 1
    NewListener := fun _ => .ok { fd := 3 }
    NewTlsListener := fun _ _ _ => .ok { id := 7 }
    NewApplication := fun _ => .ok { id := 1 } }

def sampleGlobals : Globals := { CompressType := 0, CompressMinSize := 0, RunMod := "product" }

def sampleConfig : HttpServerConfig :=
  { RunMod := "dev", Root := "/www", ViewPath := "/www/view", Addr := "127.0.0.1:8080",
    AccessLog := "a.log", ErrorLog := "e.log", RunLog := "r.log", Compress := 0,
    CompressMin := 0, ReadTimeout := 0, WriteTimeout := 5, MaxHeaderByte := 0,
    HttpErrorHtml := [], SslOn := false, SslCert := "", SslCertKey := "",
    Pid := "/tmp/foolgo.pid" }

def sampleServer : FoolServer :=
  { Server := { Addr := "127.0.0.1:8080", ReadTimeout := 30 * Second,
                WriteTimeout := 5 * Second, MaxHeaderBytes := 2 ^ 20, Handler := { id := 1 } }
    listener := .raw { fd := 3 }
    listenerPtr := { fd := 3 }
    App := { id := 1 }
    config := applyDefaults sampleConfig }

def sampleEnv : RunEnv :=
  { isChild := false, parent := 1, findProcessFails := false, pidMissing := false }

/-- A cold start that accepts one connection, receives `SIGTERM`, runs
`shutDown`, lets `Serve` return and `Run` park in `Wait`, and lets the
watchdog sleep through its grace period. -/
def toGraceExpiry : List Label :=
  [.run sampleEnv, .run sampleEnv, .run sampleEnv, .run sampleEnv, .run sampleEnv,
    .connAdd, .signal Signal.SIGTERM none, .handler none, .handler none, .handler none,
    .handler none, .run sampleEnv, .run sampleEnv, .run sampleEnv, .watchdog 0, .watchdog 0]

/-- The watchdog alone: check, `Done`, check, `Done`, deferred function. -/
def watchdogToReturn : List Label :=
  [.watchdog 0, .watchdog 0, .watchdog 0, .watchdog 0, .watchdog 0]

/-- A cold start in which `Serve` returns on its own while the handler stands
between the guard and the assignment of `shutDown`, up to the point where
`Run` is about to execute line 177. -/
def toRaceBeforeTerminate : List Label :=
  [.run sampleEnv, .run sampleEnv, .run sampleEnv, .run sampleEnv, .run sampleEnv,
    .signal Signal.SIGTERM none, .run sampleEnv, .run sampleEnv, .run sampleEnv]

/-! ## Construction: validation (C1, C3) -/

@[simp]
theorem applyDefaults_Addr (c : HttpServerConfig) : (applyDefaults c).Addr = c.Addr := by
  unfold applyDefaults; dsimp only; split_ifs <;> rfl

@[simp]
theorem applyDefaults_Pid (c : HttpServerConfig) : (applyDefaults c).Pid = c.Pid := by
  unfold applyDefaults; dsimp only; split_ifs <;> rfl

@[simp]
theorem applyDefaults_Compress (c : HttpServerConfig) :
    (applyDefaults c).Compress = c.Compress := by
  unfold applyDefaults; dsimp only; split_ifs <;> rfl

@[simp]
theorem applyDefaults_CompressMin (c : HttpServerConfig) :
    (applyDefaults c).CompressMin = c.CompressMin := by
  unfold applyDefaults; dsimp only; split_ifs <;> rfl

@[simp]
theorem applyDefaults_SslOn (c : HttpServerConfig) : (applyDefaults c).SslOn = c.SslOn := by
  unfold applyDefaults; dsimp only; split_ifs <;> rfl

@[simp]
theorem applyDefaults_SslCert (c : HttpServerConfig) :
    (applyDefaults c).SslCert = c.SslCert := by
  unfold applyDefaults; dsimp only; split_ifs <;> rfl

@[simp]
theorem applyDefaults_SslCertKey (c : HttpServerConfig) :
    (applyDefaults c).SslCertKey = c.SslCertKey := by
  unfold applyDefaults; dsimp only; split_ifs <;> rfl

theorem applyDefaults_ReadTimeout (c : HttpServerConfig) :
    (applyDefaults c).ReadTimeout = if c.ReadTimeout ≤ 0 then 30 else c.ReadTimeout := by
  unfold applyDefaults; dsimp only; split_ifs <;> rfl

theorem applyDefaults_WriteTimeout (c : HttpServerConfig) :
    (applyDefaults c).WriteTimeout = if c.WriteTimeout ≤ 0 then 30 else c.WriteTimeout := by
  unfold applyDefaults; dsimp only; split_ifs <;> rfl

theorem applyDefaults_MaxHeaderByte (c : HttpServerConfig) :
    (applyDefaults c).MaxHeaderByte = if c.MaxHeaderByte ≤ 0 then 2 ^ 20 else c.MaxHeaderByte := by
  unfold applyDefaults; dsimp only; split_ifs <;> rfl

/-- Whatever the collaborators do, a server returned by `buildServer` has the
fields assigned at lines 111-140. -/
theorem buildServer_inv (k : Collaborators) (c : HttpServerConfig) (srv : FoolServer)
    (h : buildServer k c = .ok srv) :
    ∃ l app, k.NewListener c.Addr = .ok l ∧ k.NewApplication c = .ok app ∧
      srv.listenerPtr = l ∧ srv.App = app ∧ srv.config = c ∧
      srv.Server = { Addr := c.Addr
                     ReadTimeout := secondsToDuration c.ReadTimeout
                     WriteTimeout := secondsToDuration c.WriteTimeout
                     MaxHeaderBytes := c.MaxHeaderByte
                     Handler := app } ∧
      ((c.SslOn = true ∧ c.SslCert ≠ "" ∧ c.SslCertKey ≠ "") →
        ∃ t, k.NewTlsListener l c.SslCert c.SslCertKey = .ok t ∧ srv.listener = NetListener.tls t) ∧
      (¬ (c.SslOn = true ∧ c.SslCert ≠ "" ∧ c.SslCertKey ≠ "") →
        srv.listener = NetListener.raw l) := by
  unfold buildServer at h
  cases hl : k.NewListener c.Addr with
  | error e => simp [hl] at h
  | ok l =>
    cases happ : k.NewApplication c with
    | error e =>
      simp only [hl, happ] at h
      split at h <;> simp at h
    | ok app =>
      by_cases htls : c.SslOn = true ∧ c.SslCert ≠ "" ∧ c.SslCertKey ≠ ""
      · obtain ⟨h1, h2, h3⟩ := htls
        cases ht : k.NewTlsListener l c.SslCert c.SslCertKey with
        | error e => simp [hl, happ, ht, h1, h2, h3] at h
        | ok t =>
          simp [hl, happ, ht, h1, h2, h3] at h
          subst h
          exact ⟨l, app, rfl, rfl, rfl, rfl, rfl, rfl, fun _ => ⟨t, ht, rfl⟩,
            fun hn => absurd ⟨h1, h2, h3⟩ hn⟩
      · have hoff : (c.SslOn == true && c.SslCert != "" && c.SslCertKey != "") = false := by
          by_contra hc
          simp at hc
          exact htls ⟨hc.1, by simpa using hc.2.1, by simpa using hc.2.2⟩
        simp only [hl, happ, hoff] at h
        simp at h
        subst h
        exact ⟨l, app, rfl, rfl, rfl, rfl, rfl, rfl, fun hy => absurd hy htls, fun _ => rfl⟩

/-- A successful `NewServer` passed the three checks and returns what
`buildServer` made from the defaulted configuration. -/
theorem NewServer_inv (k : Collaborators) (g : Globals) (c : HttpServerConfig) (srv : FoolServer)
    (h : (NewServer k g c).ret = .ok srv) :
    c.Addr ≠ "" ∧ c.Pid ≠ "" ∧ -1 ≤ c.Compress ∧ c.Compress ≤ 2 ∧
      buildServer k (applyDefaults c) = .ok srv ∧
      (NewServer k g c).globals = setGlobals k (applyDefaults c) g ∧
      (NewServer k g c).config = applyDefaults c := by
  by_cases ha : c.Addr = ""
  · simp [NewServer, ha] at h
  · by_cases hp : c.Pid = ""
    · simp [NewServer, ha, hp] at h
    · by_cases hc : c.Compress > 2 ∨ c.Compress < -1
      · simp [NewServer, ha, hp, hc] at h
      · have hN : NewServer k g c =
            { ret := buildServer k (applyDefaults c)
              globals := setGlobals k (applyDefaults c) g
              config := applyDefaults c } := by
          simp only [NewServer, ha, hp, hc, applyDefaults_Pid, applyDefaults_Compress, if_false]
        rw [hN] at h ⊢
        push_neg at hc
        exact ⟨ha, hp, hc.2, hc.1, h, rfl, rfl⟩

theorem wrap64_of_range (x : Int) (h1 : -(2 ^ 63) ≤ x) (h2 : x < 2 ^ 63) : wrap64 x = x := by
  unfold wrap64
  norm_num at h1 h2 ⊢
  omega

theorem secondsToDuration_of_le (n : Int) (h0 : 0 ≤ n) (h : n ≤ maxSeconds) :
    secondsToDuration n = n * Second := by
  unfold secondsToDuration
  apply wrap64_of_range
  · unfold Second; norm_num; omega
  · unfold Second maxSeconds at *; norm_num; omega

/-- Claim C2, as stated, fails: a read timeout of 9223372037 seconds is accepted,
and the effective read timeout is the wrapped product, a negative duration,
not 9223372037 seconds. -/
theorem NewServer_timeout_counterexample :
    ∃ srv, (NewServer sampleCollaborators sampleGlobals
        { sampleConfig with ReadTimeout := 9223372037 }).ret = .ok srv ∧
      srv.Server.ReadTimeout = -9223372036709551616 ∧
      srv.Server.ReadTimeout ≠ 9223372037 * Second :=
  ⟨_, rfl, by decide, by decide⟩

/-- Claim C2, amended: on every configuration on which `NewServer` succeeds,
the effective read timeout is 30 s if `ReadTimeout ≤ 0` and `ReadTimeout`
seconds otherwise, provided `ReadTimeout` is at most 9223372036, and likewise
the write timeout, provided `WriteTimeout` is at most 9223372036; and, with no
proviso, `MaxHeaderBytes` is `2^20` if `MaxHeaderByte ≤ 0` else `MaxHeaderByte`,
`CompressType` is `COMPRESS_GZIP` if `Compress = 0` else `Compress`,
`CompressMinSize` is 200 if `CompressMin = 0` else `CompressMin`, and the
configuration fields themselves hold 30, 30 and `2^20` in place of non-positive
values and are otherwise unchanged. -/
theorem NewServer_effective_values (k : Collaborators) (g : Globals) (c : HttpServerConfig)
    (srv : FoolServer) (h : (NewServer k g c).ret = .ok srv) :
    (c.ReadTimeout ≤ maxSeconds →
        srv.Server.ReadTimeout = (if c.ReadTimeout ≤ 0 then 30 else c.ReadTimeout) * Second) ∧
      (c.WriteTimeout ≤ maxSeconds →
        srv.Server.WriteTimeout
          = (if c.WriteTimeout ≤ 0 then 30 else c.WriteTimeout) * Second) ∧
      srv.Server.MaxHeaderBytes = (if c.MaxHeaderByte ≤ 0 then 2 ^ 20 else c.MaxHeaderByte) ∧
      (NewServer k g c).globals.CompressType =
        (if c.Compress = 0 then k.COMPRESS_GZIP else c.Compress) ∧
      (NewServer k g c).globals.CompressMinSize =
        (if c.CompressMin = 0 then 200 else c.CompressMin) ∧
      srv.config.ReadTimeout = (if c.ReadTimeout ≤ 0 then 30 else c.ReadTimeout) ∧
      srv.config.WriteTimeout = (if c.WriteTimeout ≤ 0 then 30 else c.WriteTimeout) ∧
      srv.config.MaxHeaderByte = (if c.MaxHeaderByte ≤ 0 then 2 ^ 20 else c.MaxHeaderByte) := by
  obtain ⟨-, -, -, -, hb, hg, -⟩ := NewServer_inv k g c srv h
  obtain ⟨l, app, -, -, -, -, hcfg, hsrv, -, -⟩ := buildServer_inv k _ srv hb
  have hR : c.ReadTimeout ≤ maxSeconds → secondsToDuration (applyDefaults c).ReadTimeout
      = (if c.ReadTimeout ≤ 0 then 30 else c.ReadTimeout) * Second := by
    intro hr
    rw [applyDefaults_ReadTimeout]
    apply secondsToDuration_of_le
    · split_ifs <;> omega
    · unfold maxSeconds at *; split_ifs <;> omega
  have hW : c.WriteTimeout ≤ maxSeconds → secondsToDuration (applyDefaults c).WriteTimeout
      = (if c.WriteTimeout ≤ 0 then 30 else c.WriteTimeout) * Second := by
    intro hw
    rw [applyDefaults_WriteTimeout]
    apply secondsToDuration_of_le
    · split_ifs <;> omega
    · unfold maxSeconds at *; split_ifs <;> omega
  refine ⟨fun hr => ?_, fun hw => ?_, ?_, ?_, ?_, ?_, ?_, ?_⟩
  · rw [hsrv]; exact hR hr
  · rw [hsrv]; exact hW hw
  · rw [hsrv]; exact applyDefaults_MaxHeaderByte c
  · rw [hg]; unfold setGlobals; simp only [applyDefaults_Compress, applyDefaults_CompressMin]
    split_ifs <;> rfl
  · rw [hg]; unfold setGlobals; simp only [applyDefaults_Compress, applyDefaults_CompressMin]
    split_ifs <;> rfl
  · rw [hcfg]; exact applyDefaults_ReadTimeout c
  · rw [hcfg]; exact applyDefaults_WriteTimeout c
  · rw [hcfg]; exact applyDefaults_MaxHeaderByte c

/-- Claim C2, instances: the sample configuration (read timeout unset, write
timeout 5, header size unset, compression unset) yields 30 s, 5 s, 1 MiB, gzip
and a 200-byte threshold; and with a read timeout of 9223372037 the values that
carry no proviso are still the stated ones. -/
theorem NewServer_effective_values_witness :
    (∃ srv, (NewServer sampleCollaborators sampleGlobals sampleConfig).ret = .ok srv ∧
      srv.Server.ReadTimeout = 30 * Second ∧ srv.Server.WriteTimeout = 5 * Second ∧
      srv.Server.MaxHeaderBytes = 2 ^ 20 ∧
      (NewServer sampleCollaborators sampleGlobals sampleConfig).globals.CompressType
        = sampleCollaborators.COMPRESS_GZIP ∧
      (NewServer sampleCollaborators sampleGlobals sampleConfig).globals.CompressMinSize = 200) ∧
    (∃ srv, (NewServer sampleCollaborators sampleGlobals
          { sampleConfig with ReadTimeout := 9223372037 }).ret = .ok srv ∧
      srv.Server.WriteTimeout = 5 * Second ∧ srv.Server.MaxHeaderBytes = 2 ^ 20 ∧
      srv.config.ReadTimeout = 9223372037) :=
  ⟨⟨sampleServer, rfl,
    (NewServer_effective_values sampleCollaborators sampleGlobals sampleConfig sampleServer
      rfl).1 (by decide),
    (NewServer_effective_values sampleCollaborators sampleGlobals sampleConfig sampleServer
      rfl).2.1 (by decide),
    (NewServer_effective_values sampleCollaborators sampleGlobals sampleConfig sampleServer
      rfl).2.2.1,
    (NewServer_effective_values sampleCollaborators sampleGlobals sampleConfig sampleServer
      rfl).2.2.2.1,
    (NewServer_effective_values sampleCollaborators sampleGlobals sampleConfig sampleServer
      rfl).2.2.2.2.1⟩,
   ⟨_, rfl,
    (NewServer_effective_values sampleCollaborators sampleGlobals
      { sampleConfig with ReadTimeout := 9223372037 } _ rfl).2.1 (by decide),
    (NewServer_effective_values sampleCollaborators sampleGlobals
      { sampleConfig with ReadTimeout := 9223372037 } _ rfl).2.2.1,
    (NewServer_effective_values sampleCollaborators sampleGlobals
      { sampleConfig with ReadTimeout := 9223372037 } _ rfl).2.2.2.2.2.1⟩⟩

/-! ## Restart handoff: guard, argument list, exported listener (C5, C6, C8) -/

/-- With the guard free, `forkServer` sets it, exports the descriptor of
`listenerPtr`, and attempts one spawn; a spawn error only adds a log line. -/
theorem forkServer_free (srv : FoolServer) (path : String) (rest : List String)
    (e : Option String) (p : Proc) (h : p.isForking = false) :
    ∃ p', forkServer srv (path :: rest) e p = some p' ∧ p'.isForking = true ∧
      p'.exported = p.exported ++ [srv.listenerPtr] ∧
      p'.spawned = p.spawned ++ [(path, successorArgs (path :: rest))] ∧
      p'.serverStat = p.serverStat ∧ p'.closed = p.closed ∧ p'.watchdogs = p.watchdogs ∧
      p'.connWg = p.connWg := by
  cases e with
  | none => exact ⟨_, if_neg (by simp [h]), rfl, rfl, rfl, rfl, rfl, rfl, rfl⟩
  | some e => exact ⟨_, if_neg (by simp [h]), rfl, rfl, rfl, rfl, rfl, rfl, rfl⟩

/-- With the guard held, `forkServer` returns at line 261 and changes nothing. -/
theorem forkServer_held (srv : FoolServer) (osArgs : List String) (e : Option String)
    (p : Proc) (h : p.isForking = true) : forkServer srv osArgs e p = some p := by
  simp [forkServer, h]

theorem forkServerMany_held (srv : FoolServer) (osArgs : List String)
    (es : List (Option String)) (p : Proc) (h : p.isForking = true) :
    forkServerMany srv osArgs es p = some p := by
  induction es with
  | nil => rfl
  | cons e es ih => simp [forkServerMany, forkServer_held srv osArgs e p h, ih]

/-- The loop of lines 274-279 appends the arguments other than `-reload`, in order. -/
theorem foldl_skip_reload (xs acc : List String) :
    xs.foldl (fun acc arg => if arg = "-reload" then acc else acc ++ [arg]) acc
      = acc ++ xs.filter (fun a => decide (a ≠ "-reload")) := by
  induction xs generalizing acc with
  | nil => simp
  | cons x xs ih =>
    by_cases hx : x = "-reload"
    · simp [List.foldl_cons, hx, ih]
    · simp [List.foldl_cons, hx, ih]

theorem successorArgs_cons (path : String) (rest : List String) :
    successorArgs (path :: rest)
      = rest.filter (fun a => decide (a ≠ "-reload")) ++ ["-reload"] := by
  unfold successorArgs
  cases rest with
  | nil => simp
  | cons r rs =>
    have : (path :: r :: rs).length > 1 := by simp
    simp only [this, if_true, List.drop_succ_cons, List.drop_zero, foldl_skip_reload,
      List.nil_append]

/-- Claim C5: starting with the guard free, any sequence of `N ≥ 1` restart
triggers makes exactly one spawn attempt and exports exactly one descriptor:
the whole sequence has the effect of its first call alone, the guard is held
afterwards whatever `cmd.Start()` returned, and a call made while the guard is
held changes nothing. -/
theorem forkServer_single_spawn (srv : FoolServer) (path : String) (rest : List String)
    (e : Option String) (es : List (Option String)) (p : Proc) (hg : p.isForking = false) :
    ∃ p', forkServerMany srv (path :: rest) (e :: es) p = some p' ∧
      forkServer srv (path :: rest) e p = some p' ∧
      p'.spawned = p.spawned ++ [(path, successorArgs (path :: rest))] ∧
      p'.exported = p.exported ++ [srv.listenerPtr] ∧
      p'.isForking = true ∧
      (∀ e2, forkServer srv (path :: rest) e2 p' = some p') := by
  obtain ⟨p', h1, hf, hx, hs, -⟩ := forkServer_free srv path rest e p hg
  refine ⟨p', ?_, h1, hs, hx, hf, fun e2 => forkServer_held srv _ e2 p' hf⟩
  simp [forkServerMany, h1, forkServerMany_held srv _ es p' hf]

/-- Claim C5, instance: three triggers, the first spawn failing, give one spawn
attempt, one exported descriptor, and leave the guard held. -/
theorem forkServer_single_spawn_witness :
    Proc.initial.isForking = false ∧
      ∃ p', forkServerMany sampleServer ["/bin/srv", "-p", "80"]
          [some "exec format error", none, none] Proc.initial = some p' ∧
        p'.spawned = [("/bin/srv", ["-p", "80", "-reload"])] ∧
        p'.exported = [sampleServer.listenerPtr] ∧ p'.isForking = true := by
  obtain ⟨p', h1, -, h3, h4, h5, -⟩ :=
    forkServer_single_spawn sampleServer "/bin/srv" ["-p", "80"] (some "exec format error")
      [none, none] Proc.initial rfl
  exact ⟨rfl, p', h1, h3, h4, h5⟩

theorem successorArgs_eq (osArgs : List String) :
    successorArgs osArgs
      = osArgs.tail.filter (fun a => decide (a ≠ "-reload")) ++ ["-reload"] := by
  cases osArgs with
  | nil => simp [successorArgs]
  | cons path rest => exact successorArgs_cons path rest

/-- Claim C6: for every argument vector `os.Args`, the argument list built by
lines 272-281 is the arguments after the program name without the elements
equal to `-reload`, in order, followed by one `-reload`; it contains `-reload`
exactly once, as its last element; rebuilding from the vector the successor
receives gives the same list; and this list is what `forkServer` passes to the
spawned command together with `os.Args[0]`. -/
theorem successorArgs_spec (srv : FoolServer) (osArgs : List String) (path : String)
    (rest : List String) (e : Option String) :
    successorArgs osArgs
        = osArgs.tail.filter (fun a => decide (a ≠ "-reload")) ++ ["-reload"] ∧
      (successorArgs osArgs).count "-reload" = 1 ∧
      (successorArgs osArgs).getLast? = some "-reload" ∧
      successorArgs (path :: successorArgs osArgs) = successorArgs osArgs ∧
      (Option.map Proc.spawned (forkServer srv (path :: rest) e Proc.initial))
        = some [(path, successorArgs (path :: rest))] := by
  have hcount : (osArgs.tail.filter (fun a => decide (a ≠ "-reload"))).count "-reload" = 0 := by
    rw [List.count_eq_zero]
    intro hm
    have := (List.mem_filter.1 hm).2
    simp at this
  refine ⟨successorArgs_eq osArgs, ?_, ?_, ?_, ?_⟩
  · rw [successorArgs_eq, List.count_append, hcount]
    simp
  · rw [successorArgs_eq]
    simp
  · rw [successorArgs_cons path (successorArgs osArgs), successorArgs_eq osArgs]
    simp [List.filter_append, List.filter_filter]
  · cases e <;> simp [forkServer, Proc.initial]

/-- Claim C8: on every configuration on which `NewServer` succeeds,
`listenerPtr`, whose descriptor `forkServer` exports, is the listener returned
by `NewListener`; the accept listener is the value `NewTlsListener` made from
that listener exactly when `SslOn` is true and `SslCert` and `SslCertKey` are
both non-empty, and is the raw listener itself in every other case. -/
theorem NewServer_listeners (k : Collaborators) (g : Globals) (c : HttpServerConfig)
    (srv : FoolServer) (h : (NewServer k g c).ret = .ok srv) :
    ∃ l, k.NewListener c.Addr = .ok l ∧ srv.listenerPtr = l ∧
      (∀ path rest e p, p.isForking = false →
        Option.map Proc.exported (forkServer srv (path :: rest) e p) = some (p.exported ++ [l])) ∧
      ((∃ t, k.NewTlsListener l c.SslCert c.SslCertKey = .ok t ∧ srv.listener = NetListener.tls t)
        ↔ (c.SslOn = true ∧ c.SslCert ≠ "" ∧ c.SslCertKey ≠ "")) ∧
      (¬ (c.SslOn = true ∧ c.SslCert ≠ "" ∧ c.SslCertKey ≠ "") →
        srv.listener = NetListener.raw l) := by
  obtain ⟨-, -, -, -, hb, -, -⟩ := NewServer_inv k g c srv h
  obtain ⟨l, app, hl, -, hptr, -, -, -, hon, hoff⟩ := buildServer_inv k _ srv hb
  simp only [applyDefaults_Addr, applyDefaults_SslOn, applyDefaults_SslCert,
    applyDefaults_SslCertKey] at hl hon hoff
  refine ⟨l, hl, hptr, ?_, ⟨?_, hon⟩, hoff⟩
  · intro path rest e p hp
    obtain ⟨p', h1, -, h3, -⟩ := forkServer_free srv path rest e p hp
    rw [h1, ← hptr]
    simp [h3]
  · rintro ⟨t, -, ht⟩
    by_contra hn
    rw [hoff hn] at ht
    cases ht

/-- Claim C8, instances: without TLS material the accept listener is the raw
listener; with `SslOn` and both paths set it is the TLS value; in both cases
`listenerPtr` is the raw listener. -/
theorem NewServer_listeners_witness :
    (∃ srv, (NewServer sampleCollaborators sampleGlobals sampleConfig).ret = .ok srv ∧
        srv.listenerPtr = { fd := 3 } ∧ srv.listener = NetListener.raw { fd := 3 }) ∧
      (∃ srv, (NewServer sampleCollaborators sampleGlobals
          { sampleConfig with SslOn := true, SslCert := "c.pem", SslCertKey := "k.pem" }).ret
            = .ok srv ∧
        srv.listenerPtr = { fd := 3 } ∧ srv.listener = NetListener.tls { id := 7 }) := by
  refine ⟨⟨sampleServer, rfl, ?_, ?_⟩, ⟨_, rfl, rfl, rfl⟩⟩
  · obtain ⟨l, hl, hp, -⟩ :=
      NewServer_listeners sampleCollaborators sampleGlobals sampleConfig sampleServer rfl
    rw [hp]
    cases hl
    rfl
  · obtain ⟨l, hl, -, -, -, hoff⟩ :=
      NewServer_listeners sampleCollaborators sampleGlobals sampleConfig sampleServer rfl
    rw [hoff (by decide)]
    cases hl
    rfl

/-! ## Shutdown and signal dispatch (C4, C9) -/

/-- The guard of `shutDown` (line 205) and its assignment (line 208). -/
theorem shutDown_guarded_stat (srv : FoolServer) (e : Option String) (p : Proc) :
    (p.serverStat ≠ STATE_RUNNING → shutDown srv e p = p) ∧
      (p.serverStat = STATE_RUNNING → (shutDown srv e p).serverStat = STATE_SHUTTING_DOWN) := by
  refine ⟨fun h => if_pos h, fun h => ?_⟩
  have hs : shutDown srv e p = _ := if_neg (not_not.2 h)
  rw [hs]

/-- Claim C4: in every state other than `RUNNING`, `shutDown` changes nothing;
from `RUNNING` it sets the state to `SHUTTING_DOWN`, starts one watchdog and
closes the listener once, whether or not `Close` returns an error, and touches
neither the restart guard nor the connection counter; a second `shutDown`
after a first one changes nothing more. -/
theorem shutDown_guarded_idempotent (srv : FoolServer) (e1 e2 : Option String) (p : Proc) :
    (p.serverStat ≠ STATE_RUNNING → shutDown srv e1 p = p) ∧
      (p.serverStat = STATE_RUNNING →
        (shutDown srv e1 p).serverStat = STATE_SHUTTING_DOWN ∧
        (shutDown srv e1 p).watchdogs = p.watchdogs + 1 ∧
        (shutDown srv e1 p).closed = p.closed ++ [srv.listener] ∧
        (shutDown srv e1 p).isForking = p.isForking ∧
        (shutDown srv e1 p).connWg = p.connWg) ∧
      shutDown srv e2 (shutDown srv e1 p) = shutDown srv e1 p := by
  refine ⟨fun h => if_pos h, fun h => ?_, ?_⟩
  · have hs : shutDown srv e1 p = _ := if_neg (not_not.2 h)
    rw [hs]
    exact ⟨rfl, rfl, rfl, rfl, rfl⟩
  · by_cases h : p.serverStat = STATE_RUNNING
    · have hs : shutDown srv e1 p = _ := if_neg (not_not.2 h)
      rw [hs]
      exact if_pos (show STATE_SHUTTING_DOWN ≠ STATE_RUNNING by decide)
    · have hs : shutDown srv e1 p = p := if_pos h
      rw [hs]
      exact if_pos h

/-- Claim C4, instances: from `RUNNING` with a failing `Close` the state becomes
`SHUTTING_DOWN` with one watchdog and one close, and before `Run` has set
`RUNNING` the call changes nothing. -/
theorem shutDown_guarded_idempotent_witness :
    (shutDown sampleServer (some "use of closed network connection")
        { Proc.initial with serverStat := STATE_RUNNING }).serverStat = STATE_SHUTTING_DOWN ∧
      (shutDown sampleServer (some "use of closed network connection")
        { Proc.initial with serverStat := STATE_RUNNING }).watchdogs = 1 ∧
      (shutDown sampleServer (some "use of closed network connection")
        { Proc.initial with serverStat := STATE_RUNNING }).closed = [sampleServer.listener] ∧
      shutDown sampleServer none Proc.initial = Proc.initial :=
  ⟨((shutDown_guarded_idempotent sampleServer (some "use of closed network connection") none
      { Proc.initial with serverStat := STATE_RUNNING }).2.1 rfl).1,
    ((shutDown_guarded_idempotent sampleServer (some "use of closed network connection") none
      { Proc.initial with serverStat := STATE_RUNNING }).2.1 rfl).2.1,
    ((shutDown_guarded_idempotent sampleServer (some "use of closed network connection") none
      { Proc.initial with serverStat := STATE_RUNNING }).2.1 rfl).2.2.1,
    (shutDown_guarded_idempotent sampleServer none none Proc.initial).1 (by decide)⟩

/-- Claim C9: for every state and both outcomes of `cmd.Start()`, handling the
restart signal leaves `serverStat` as it was, closes no listener and starts no
watchdog; `SIGINT`, `SIGQUIT` and `SIGTERM` are handled by `shutDown`, and no
other signal changes the state, the closed listeners or the watchdogs. -/
theorem restart_keeps_lifecycle (srv : FoolServer) (path : String) (rest : List String)
    (closeErr startErr : Option String) (p : Proc) :
    (∃ p', signalDispatch srv (path :: rest) Signal.SIGHUP closeErr startErr p = some p' ∧
        forkServer srv (path :: rest) startErr p = some p' ∧
        p'.serverStat = p.serverStat ∧ p'.closed = p.closed ∧ p'.watchdogs = p.watchdogs) ∧
      (∀ sig, (sig = Signal.SIGINT ∨ sig = Signal.SIGQUIT ∨ sig = Signal.SIGTERM) →
        signalDispatch srv (path :: rest) sig closeErr startErr p
          = some (shutDown srv closeErr p)) ∧
      (∀ sig, ¬ (sig = Signal.SIGINT ∨ sig = Signal.SIGQUIT ∨ sig = Signal.SIGTERM) →
        ∃ p', signalDispatch srv (path :: rest) sig closeErr startErr p = some p' ∧
          p'.serverStat = p.serverStat ∧ p'.closed = p.closed ∧ p'.watchdogs = p.watchdogs) := by
  have hfork : ∃ p', forkServer srv (path :: rest) startErr p = some p' ∧
      p'.serverStat = p.serverStat ∧ p'.closed = p.closed ∧ p'.watchdogs = p.watchdogs := by
    cases hf : p.isForking with
    | true => exact ⟨p, forkServer_held srv _ startErr p hf, rfl, rfl, rfl⟩
    | false =>
      obtain ⟨p', h1, -, -, -, h5, h6, h7, -⟩ := forkServer_free srv path rest startErr p hf
      exact ⟨p', h1, h5, h6, h7⟩
  refine ⟨?_, ?_, ?_⟩
  · obtain ⟨p', h1, h2⟩ := hfork
    exact ⟨p', h1, h1, h2⟩
  · rintro sig (h | h | h) <;> subst h <;> rfl
  · intro sig hs
    cases sig with
    | SIGHUP =>
      obtain ⟨p', h1, h2⟩ := hfork
      exact ⟨p', h1, h2⟩
    | SIGINT => exact absurd (Or.inl rfl) hs
    | SIGQUIT => exact absurd (Or.inr (Or.inl rfl)) hs
    | SIGTERM => exact absurd (Or.inr (Or.inr rfl)) hs
    | other n => exact ⟨p, rfl, rfl, rfl, rfl⟩

/-- Claim C9, instance: a restart signal whose spawn fails, received while
`RUNNING`, leaves the state `RUNNING`, and `SIGTERM` is handled by `shutDown`. -/
theorem restart_keeps_lifecycle_witness :
    (∃ p', signalDispatch sampleServer ["/bin/srv"] Signal.SIGHUP none (some "enoent")
          { Proc.initial with serverStat := STATE_RUNNING } = some p' ∧
        p'.serverStat = STATE_RUNNING ∧ p'.closed = [] ∧ p'.watchdogs = 0) ∧
      signalDispatch sampleServer ["/bin/srv"] Signal.SIGTERM none (some "enoent")
          { Proc.initial with serverStat := STATE_RUNNING }
        = some (shutDown sampleServer none { Proc.initial with serverStat := STATE_RUNNING }) := by
  obtain ⟨⟨p', h1, -, h2, h3, h4⟩, hterm, -⟩ :=
    restart_keeps_lifecycle sampleServer "/bin/srv" [] none (some "enoent")
      { Proc.initial with serverStat := STATE_RUNNING }
  exact ⟨⟨p', h1, h2, h3, h4⟩, hterm Signal.SIGTERM (Or.inr (Or.inr rfl))⟩

/-! ## The statements of `shutDown` and `forkServer` inside the process -/

/-- Executed without interruption from a handler at line 188, the statements of
`shutDown` have the effect of the function `shutDown`, and add one watchdog
goroutine. -/
theorem shutDown_statements (srv : FoolServer) (osArgs : List String)
    (closeErr startErr : Option String) (m : Machine) (hr : m.sys.run ≠ RunPc.idle)
    (hh : m.handler = HandlerPc.waiting) (he : m.ended = none)
    (hs : m.sys.proc.serverStat = STATE_RUNNING) :
    Machine.exec srv osArgs
        [.signal Signal.SIGTERM startErr, .handler closeErr, .handler closeErr,
          .handler closeErr, .handler closeErr] m
      = some { m with
          sys := { m.sys with proc := shutDown srv closeErr m.sys.proc }
          wds := m.wds ++ [WdPc.started] } := by
  obtain ⟨⟨p, r⟩, h, w, e⟩ := m
  simp only at hr hh he hs
  subst hh he
  simp [Machine.exec, Machine.step, Machine.receive, Machine.handlerStep, shutDown, hr, hs,
    Sys.logLine]

/-- When the guard of line 205 fails, the receipt of a termination signal
changes nothing, as the function `shutDown` does. -/
theorem shutDown_statements_guard (srv : FoolServer) (osArgs : List String)
    (closeErr startErr : Option String) (m : Machine) (hr : m.sys.run ≠ RunPc.idle)
    (hh : m.handler = HandlerPc.waiting) (he : m.ended = none)
    (hs : m.sys.proc.serverStat ≠ STATE_RUNNING) :
    Machine.step srv osArgs (.signal Signal.SIGTERM startErr) m = some m ∧
      shutDown srv closeErr m.sys.proc = m.sys.proc := by
  obtain ⟨⟨p, r⟩, h, w, e⟩ := m
  simp only at hr hh he hs
  subst hh he
  simp [Machine.step, Machine.receive, shutDown, hr, hs]

/-- Executed from a handler at line 188, the receipt of the restart signal,
followed by the log statement of line 290 when `cmd.Start()` was called and
failed, has the effect of the function `forkServer`. -/
theorem forkServer_statements (srv : FoolServer) (path : String) (rest : List String)
    (closeErr : Option String) (e : String) (m : Machine) (hr : m.sys.run ≠ RunPc.idle)
    (hh : m.handler = HandlerPc.waiting) (he : m.ended = none) :
    (Option.map (fun x => x.sys.proc)
        (Machine.step srv (path :: rest) (.signal Signal.SIGHUP none) m)
      = forkServer srv (path :: rest) none m.sys.proc) ∧
    (m.sys.proc.isForking = true →
      Option.map (fun x => x.sys.proc)
          (Machine.step srv (path :: rest) (.signal Signal.SIGHUP (some e)) m)
        = forkServer srv (path :: rest) (some e) m.sys.proc) ∧
    (m.sys.proc.isForking = false →
      Option.map (fun x => x.sys.proc)
          (Machine.exec srv (path :: rest)
            [.signal Signal.SIGHUP (some e), .handler closeErr] m)
        = forkServer srv (path :: rest) (some e) m.sys.proc) := by
  obtain ⟨⟨p, r⟩, h, w, en⟩ := m
  simp only at hr hh he
  subst hh he
  refine ⟨?_, fun hf => ?_, fun hf => ?_⟩
  · cases hf : p.isForking <;>
      simp [Machine.step, Machine.receive, forkServer, hr, hf]
  · simp only at hf
    simp [Machine.step, Machine.receive, forkServer, hr, hf]
  · simp only at hf
    simp [Machine.exec, Machine.step, Machine.receive, Machine.handlerStep, forkServer, hr, hf,
      Sys.logLine]

/-! ## Drain watchdog (C7) -/

/-- Claim C7, failing run: a cold start accepts one connection, receives
`SIGTERM` and reaches grace expiry in state `SHUTTING_DOWN` with the counter at
1 and `Run` parked in `Wait`. The watchdog then checks the state, calls `Done`
(counter 0, `Run` woken up), checks the state again, calls `Done` a second time
(counter `-1`, panic) and returns through its deferred function. The counter
is left at `-1`, and the next action of `Run`, the check `Wait` makes after
wake-up, ends the process with an unrecovered panic. -/
theorem serverTimeout_underflow_crash :
    ∃ m1 m2 m3,
      Machine.exec sampleServer ["/bin/srv"] toGraceExpiry Machine.initial = some m1 ∧
      m1.stat = STATE_SHUTTING_DOWN ∧ m1.sys.proc.connWg = 1 ∧ m1.sys.run = RunPc.blocked ∧
      m1.wds = [WdPc.loopHead] ∧ m1.ended = none ∧
      Machine.exec sampleServer ["/bin/srv"] watchdogToReturn m1 = some m2 ∧
      m2.wds = [WdPc.recovered] ∧ m2.sys.proc.wdDone = 2 ∧ m2.sys.proc.connWg = -1 ∧
      m2.sys.run = RunPc.released ∧ m2.ended = none ∧
      Machine.step sampleServer ["/bin/srv"] (.run sampleEnv) m2 = some m3 ∧
      m3.sys.proc.connWg = -1 ∧ m3.stat = STATE_SHUTTING_DOWN ∧
      m3.ended = some (ProcessEnd.panic panicReused) :=
  ⟨_, _, _, rfl, rfl, rfl, rfl, rfl, rfl, rfl, rfl, rfl, rfl, rfl, rfl, rfl, rfl, rfl, rfl⟩

/-! ## Lifecycle (C10) -/

theorem forkServer_serverStat (srv : FoolServer) (osArgs : List String) (e : Option String)
    (p p' : Proc) (h : forkServer srv osArgs e p = some p') : p'.serverStat = p.serverStat := by
  unfold forkServer at h
  split_ifs at h with hf
  · cases h; rfl
  · cases osArgs with
    | nil => cases h
    | cons path rest =>
      cases e with
      | none => cases h; rfl
      | some e => cases h; rfl

/-- What an action of `Run` does to `serverStat` and to the phase of `Run`. -/
theorem runStep_effect (srv : FoolServer) (env : RunEnv) (s : Sys) :
    ((runStep srv env s).1.proc.serverStat = s.proc.serverStat ∧
        (runStep srv env s).1.run.phase = s.run.phase) ∨
      (s.run.phase = 0 ∧ (runStep srv env s).1.proc.serverStat = STATE_RUNNING ∧
        (runStep srv env s).1.run.phase = 1) ∨
      (s.run.phase = 1 ∧ (runStep srv env s).1.proc.serverStat = s.proc.serverStat ∧
        (runStep srv env s).1.run.phase = 2) ∨
      (s.run.phase = 1 ∧ (runStep srv env s).1.proc.serverStat = STATE_TERMINATE ∧
        (runStep srv env s).1.run.phase = 2) := by
  obtain ⟨p, r⟩ := s
  cases r
  case started => exact Or.inr (Or.inl ⟨rfl, rfl, rfl⟩)
  case woken => exact Or.inr (Or.inr (Or.inr ⟨rfl, rfl, rfl⟩))
  case atChild =>
    unfold runStep
    dsimp only
    split_ifs
    · exact Or.inr (Or.inr (Or.inl ⟨rfl, rfl, rfl⟩))
    · exact Or.inl ⟨rfl, rfl⟩
    · exact Or.inl ⟨rfl, rfl⟩
  case atPid =>
    unfold runStep
    dsimp only
    split_ifs <;> exact Or.inl ⟨rfl, rfl⟩
  case atWait =>
    unfold runStep
    dsimp only
    split_ifs <;> exact Or.inl ⟨rfl, rfl⟩
  case released =>
    unfold runStep
    dsimp only
    split_ifs <;> exact Or.inl ⟨rfl, rfl⟩
  all_goals exact Or.inl ⟨rfl, rfl⟩

theorem wgAdd_effect (d : Int) (s : Sys) :
    (wgAdd d s).1.proc.serverStat = s.proc.serverStat ∧
      (wgAdd d s).1.run.phase = s.run.phase := by
  unfold wgAdd
  dsimp only
  split_ifs with h1 h2 h3
  · exact ⟨rfl, rfl⟩
  · exact ⟨rfl, rfl⟩
  · refine ⟨rfl, ?_⟩
    rw [h3.2]
    rfl
  · exact ⟨rfl, rfl⟩

theorem serverTimeoutStep_effect (pc : WdPc) (s : Sys) :
    (serverTimeoutStep pc s).2.proc.serverStat = s.proc.serverStat ∧
      (serverTimeoutStep pc s).2.run.phase = s.run.phase := by
  cases pc
  case callDone =>
    simp only [serverTimeoutStep, wgDone]
    have h := wgAdd_effect (-1) { s with proc := { s.proc with wdDone := s.proc.wdDone + 1 } }
    split <;> exact h
  case started =>
    unfold serverTimeoutStep
    dsimp only
    split_ifs <;> exact ⟨rfl, rfl⟩
  case loopHead =>
    unfold serverTimeoutStep
    dsimp only
    split_ifs <;> exact ⟨rfl, rfl⟩
  all_goals exact ⟨rfl, rfl⟩

/-- The receipt of a signal leaves `serverStat` and `Run` alone, and puts the
handler in front of line 208 only if the guard of line 205 read `RUNNING`. -/
theorem receive_effect (srv : FoolServer) (osArgs : List String) (sig : Signal)
    (startErr : Option String) (m : Machine) (hw : m.handler = HandlerPc.waiting) :
    (Machine.receive srv osArgs sig startErr m).stat = m.stat ∧
      (Machine.receive srv osArgs sig startErr m).sys.run = m.sys.run ∧
      ((Machine.receive srv osArgs sig startErr m).handler = HandlerPc.sdAssign →
        m.stat = STATE_RUNNING) := by
  have hguard : ∀ g : Machine,
      g = (if m.sys.proc.serverStat ≠ STATE_RUNNING then m else { m with handler := .sdAssign }) →
      g.stat = m.stat ∧ g.sys.run = m.sys.run ∧
        (g.handler = HandlerPc.sdAssign → m.stat = STATE_RUNNING) := by
    intro g hg
    by_cases hs : m.sys.proc.serverStat = STATE_RUNNING
    · rw [if_neg (not_not.2 hs)] at hg
      subst hg
      exact ⟨rfl, rfl, fun _ => hs⟩
    · rw [if_pos hs] at hg
      subst hg
      exact ⟨rfl, rfl, fun h => by rw [hw] at h; cases h⟩
  cases sig with
  | SIGINT => exact hguard _ rfl
  | SIGQUIT => exact hguard _ rfl
  | SIGTERM => exact hguard _ rfl
  | other n =>
    refine ⟨rfl, rfl, fun h => ?_⟩
    have h' : m.handler = HandlerPc.sdAssign := h
    rw [hw] at h'
    cases h'
  | SIGHUP =>
    simp only [Machine.receive]
    cases hf : forkServer srv osArgs none m.sys.proc with
    | none =>
      refine ⟨rfl, rfl, fun h => ?_⟩
      have h' : m.handler = HandlerPc.sdAssign := h
      rw [hw] at h'
      cases h'
    | some p =>
      refine ⟨forkServer_serverStat srv osArgs none _ p hf, rfl, fun h => ?_⟩
      dsimp only at h
      cases startErr with
      | none => cases h
      | some e => split_ifs at h

/-- A statement of the handler leaves `Run` alone; line 208 writes
`SHUTTING_DOWN`, and no other statement writes `serverStat` or leads to line
208. -/
theorem handlerStep_effect (srv : FoolServer) (closeErr : Option String) (m m' : Machine)
    (h : Machine.handlerStep srv closeErr m = some m') :
    m'.sys.run = m.sys.run ∧
      ((m.handler = HandlerPc.sdAssign ∧ m'.stat = STATE_SHUTTING_DOWN ∧
          m'.handler ≠ HandlerPc.sdAssign) ∨
        (m.handler ≠ HandlerPc.sdAssign ∧ m'.stat = m.stat ∧
          m'.handler ≠ HandlerPc.sdAssign)) := by
  unfold Machine.handlerStep at h
  cases hh : m.handler with
  | waiting => simp [hh] at h
  | sdAssign =>
    simp only [hh, Option.some.injEq] at h
    subst h
    exact ⟨rfl, Or.inl ⟨rfl, rfl, nofun⟩⟩
  | sdSpawn =>
    simp only [hh, Option.some.injEq] at h
    subst h
    exact ⟨rfl, Or.inr ⟨nofun, rfl, nofun⟩⟩
  | sdClose =>
    simp only [hh, Option.some.injEq] at h
    subst h
    exact ⟨rfl, Or.inr ⟨nofun, rfl, nofun⟩⟩
  | sdLog e =>
    simp only [hh, Option.some.injEq] at h
    subst h
    exact ⟨rfl, Or.inr ⟨nofun, rfl, nofun⟩⟩
  | fkLog e =>
    simp only [hh, Option.some.injEq] at h
    subst h
    exact ⟨rfl, Or.inr ⟨nofun, rfl, nofun⟩⟩

/-- An action that leaves `serverStat` and the phase of `Run` alone, and leads
the handler to line 208 only when `serverStat` is `RUNNING`. -/
theorem life_keep (v0 : Int) (hv : v0 = 0 ∨ v0 = STATE_INIT) (ph : Nat) (h h' : HandlerPc)
    (a : Int) (hI : LifeInv v0 ph h a)
    (hh : h' = HandlerPc.sdAssign → h = HandlerPc.sdAssign ∨ a = STATE_RUNNING) :
    LifeInv v0 ph h' a ∧ (a ≠ STATE_TERMINATE → Allowed v0 a a) ∧
      ((a = STATE_SHUTTING_DOWN ∨ a = STATE_TERMINATE) →
        (a = STATE_SHUTTING_DOWN ∨ a = STATE_TERMINATE)) := by
  refine ⟨?_, fun _ => Or.inl rfl, fun h => h⟩
  have hv2 : v0 ≠ STATE_RUNNING := by rcases hv with rfl | rfl <;> decide
  rcases hI with ⟨h0, ha, hn⟩ | ⟨h1, ha | ⟨ha, hn⟩⟩ | ⟨h2, ha | ⟨ha, hn⟩ | ha⟩
  · refine Or.inl ⟨h0, ha, fun hc => ?_⟩
    rcases hh hc with h3 | h3
    · exact hn h3
    · exact hv2 (ha ▸ h3)
  · exact Or.inr (Or.inl ⟨h1, Or.inl ha⟩)
  · refine Or.inr (Or.inl ⟨h1, Or.inr ⟨ha, fun hc => ?_⟩⟩)
    rcases hh hc with h3 | h3
    · exact hn h3
    · rw [ha] at h3; exact absurd h3 (by decide)
  · exact Or.inr (Or.inr ⟨h2, Or.inl ha⟩)
  · refine Or.inr (Or.inr ⟨h2, Or.inr (Or.inl ⟨ha, fun hc => ?_⟩)⟩)
    rcases hh hc with h3 | h3
    · exact hn h3
    · rw [ha] at h3; exact absurd h3 (by decide)
  · exact Or.inr (Or.inr ⟨h2, Or.inr (Or.inr ha)⟩)

/-- The assignment of line 208, made with the handler in front of it. -/
theorem life_assign (v0 : Int) (ph : Nat) (h' : HandlerPc) (a : Int)
    (hI : LifeInv v0 ph HandlerPc.sdAssign a) (hh : h' ≠ HandlerPc.sdAssign) :
    LifeInv v0 ph h' STATE_SHUTTING_DOWN ∧
      (a ≠ STATE_TERMINATE → Allowed v0 a STATE_SHUTTING_DOWN) ∧
      ((a = STATE_SHUTTING_DOWN ∨ a = STATE_TERMINATE) →
        (STATE_SHUTTING_DOWN = STATE_SHUTTING_DOWN ∨ STATE_SHUTTING_DOWN = STATE_TERMINATE)) := by
  refine ⟨?_, fun hT => ?_, fun _ => Or.inl rfl⟩
  · rcases hI with ⟨-, -, hn⟩ | ⟨h1, -⟩ | ⟨h2, -⟩
    · exact absurd rfl hn
    · exact Or.inr (Or.inl ⟨h1, Or.inr ⟨rfl, hh⟩⟩)
    · exact Or.inr (Or.inr ⟨h2, Or.inr (Or.inl ⟨rfl, hh⟩)⟩)
  · rcases hI with ⟨-, -, hn⟩ | ⟨-, ha | ⟨-, hn⟩⟩ | ⟨-, ha | ⟨-, hn⟩ | ha⟩
    · exact absurd rfl hn
    · exact Or.inr (Or.inr (Or.inl ⟨ha, rfl⟩))
    · exact absurd rfl hn
    · exact Or.inr (Or.inr (Or.inl ⟨ha, rfl⟩))
    · exact absurd rfl hn
    · exact absurd ha hT

/-- An action of `Run`, described by `runStep_effect`. -/
theorem life_run (v0 : Int) (hv : v0 = 0 ∨ v0 = STATE_INIT) (ph ph' : Nat) (h : HandlerPc)
    (a a' : Int) (hI : LifeInv v0 ph h a)
    (he : (a' = a ∧ ph' = ph) ∨ (ph = 0 ∧ a' = STATE_RUNNING ∧ ph' = 1) ∨
      (ph = 1 ∧ a' = a ∧ ph' = 2) ∨ (ph = 1 ∧ a' = STATE_TERMINATE ∧ ph' = 2)) :
    LifeInv v0 ph' h a' ∧ (a ≠ STATE_TERMINATE → Allowed v0 a a') ∧
      ((a = STATE_SHUTTING_DOWN ∨ a = STATE_TERMINATE) →
        (a' = STATE_SHUTTING_DOWN ∨ a' = STATE_TERMINATE)) := by
  have hv2 : v0 ≠ STATE_SHUTTING_DOWN ∧ v0 ≠ STATE_TERMINATE := by
    rcases hv with rfl | rfl <;> decide
  rcases he with ⟨rfl, rfl⟩ | ⟨rfl, rfl, rfl⟩ | ⟨rfl, rfl, rfl⟩ | ⟨rfl, rfl, rfl⟩
  · exact ⟨hI, fun _ => Or.inl rfl, fun h => h⟩
  · rcases hI with ⟨-, ha, -⟩ | ⟨h1, -⟩ | ⟨h2, -⟩
    · refine ⟨Or.inr (Or.inl ⟨rfl, Or.inl rfl⟩), fun _ => Or.inr (Or.inl ⟨ha, rfl⟩), fun hc => ?_⟩
      rcases hc with hc | hc
      · exact absurd (ha ▸ hc) hv2.1
      · exact absurd (ha ▸ hc) hv2.2
    · exact absurd h1 (by decide)
    · exact absurd h2 (by decide)
  · rcases hI with ⟨h0, -⟩ | ⟨-, ha⟩ | ⟨h2, -⟩
    · exact absurd h0 (by decide)
    · refine ⟨Or.inr (Or.inr ⟨rfl, ?_⟩), fun _ => Or.inl rfl, fun h => h⟩
      rcases ha with ha | ha
      · exact Or.inl ha
      · exact Or.inr (Or.inl ha)
    · exact absurd h2 (by decide)
  · rcases hI with ⟨h0, -⟩ | ⟨-, ha⟩ | ⟨h2, -⟩
    · exact absurd h0 (by decide)
    · refine ⟨Or.inr (Or.inr ⟨rfl, Or.inr (Or.inr rfl)⟩), fun _ => ?_, fun _ => Or.inr rfl⟩
      rcases ha with ha | ⟨ha, -⟩
      · exact Or.inr (Or.inr (Or.inr (Or.inr ⟨ha, rfl⟩)))
      · exact Or.inr (Or.inr (Or.inr (Or.inl ⟨ha, rfl⟩)))
    · exact absurd h2 (by decide)

/-- Every action of the process preserves `LifeInv`; out of a state other than
`TERMINATE` it makes one of the changes of `Allowed`; and out of
`SHUTTING_DOWN` or `TERMINATE` it leads to `SHUTTING_DOWN` or `TERMINATE`. -/
theorem step_life (srv : FoolServer) (osArgs : List String) (v0 : Int)
    (hv : v0 = 0 ∨ v0 = STATE_INIT) (l : Label) (m m' : Machine)
    (hI : LifeInv v0 m.sys.run.phase m.handler m.stat)
    (h : Machine.step srv osArgs l m = some m') :
    LifeInv v0 m'.sys.run.phase m'.handler m'.stat ∧
      (m.stat ≠ STATE_TERMINATE → Allowed v0 m.stat m'.stat) ∧
      ((m.stat = STATE_SHUTTING_DOWN ∨ m.stat = STATE_TERMINATE) →
        (m'.stat = STATE_SHUTTING_DOWN ∨ m'.stat = STATE_TERMINATE)) := by
  cases l with
  | run env =>
    simp only [Machine.step] at h
    split_ifs at h
    simp only [Option.some.injEq] at h
    subst h
    exact life_run v0 hv _ _ _ _ _ hI (runStep_effect srv env m.sys)
  | connAdd =>
    simp only [Machine.step] at h
    split_ifs at h
    simp only [Option.some.injEq] at h
    subst h
    have he := wgAdd_effect 1 m.sys
    exact life_run v0 hv _ _ _ _ _ hI (Or.inl he)
  | connDone =>
    simp only [Machine.step] at h
    split_ifs at h
    simp only [Option.some.injEq] at h
    subst h
    have he := wgAdd_effect (-1) m.sys
    exact life_run v0 hv _ _ _ _ _ hI (Or.inl he)
  | watchdog i =>
    simp only [Machine.step] at h
    split_ifs at h
    cases hg : m.wds[i]? with
    | none => simp [hg] at h
    | some pc =>
      simp only [hg, Option.some.injEq] at h
      subst h
      have he := serverTimeoutStep_effect pc m.sys
      exact life_run v0 hv _ _ _ _ _ hI (Or.inl he)
  | signal sig startErr =>
    simp only [Machine.step] at h
    split_ifs at h with hend hen
    simp only [Option.some.injEq] at h
    subst h
    have hw : m.handler = HandlerPc.waiting := by
      by_contra hc
      exact hen (Or.inr hc)
    obtain ⟨e1, e2, e3⟩ := receive_effect srv osArgs sig startErr m hw
    rw [e1, e2]
    exact life_keep v0 hv _ _ _ _ hI (fun hc => Or.inr (e3 hc))
  | handler closeErr =>
    simp only [Machine.step] at h
    split_ifs at h
    obtain ⟨e1, e2⟩ := handlerStep_effect srv closeErr m m' h
    rw [e1]
    rcases e2 with ⟨h1, h2, h3⟩ | ⟨h1, h2, h3⟩
    · rw [h1] at hI
      rw [h2]
      exact life_assign v0 _ _ _ hI h3
    · rw [h2]
      exact life_keep v0 hv _ _ _ _ hI (fun hc => absurd hc h3)

theorem exec_life (srv : FoolServer) (osArgs : List String) (v0 : Int)
    (hv : v0 = 0 ∨ v0 = STATE_INIT) (ls : List Label) :
    ∀ (m m' : Machine), LifeInv v0 m.sys.run.phase m.handler m.stat →
      Machine.exec srv osArgs ls m = some m' →
      LifeInv v0 m'.sys.run.phase m'.handler m'.stat ∧
        ((m.stat = STATE_SHUTTING_DOWN ∨ m.stat = STATE_TERMINATE) →
          (m'.stat = STATE_SHUTTING_DOWN ∨ m'.stat = STATE_TERMINATE)) := by
  induction ls with
  | nil =>
    intro m m' hI h
    cases h
    exact ⟨hI, fun h => h⟩
  | cons l ls ih =>
    intro m m' hI h
    simp only [Machine.exec] at h
    cases hs : Machine.step srv osArgs l m with
    | none => simp [hs] at h
    | some m1 =>
      simp only [hs] at h
      obtain ⟨h1, -, h3⟩ := step_life srv osArgs v0 hv l m m1 hI hs
      obtain ⟨i1, i2⟩ := ih m1 m' h1 h
      exact ⟨i1, fun hc => i2 (h3 hc)⟩

theorem phase_zero_iff (r : RunPc) : r.phase = 0 ↔ (r = RunPc.idle ∨ r = RunPc.started) := by
  cases r <;> simp [RunPc.phase]

/-- Claim C10, as stated, fails in three ways. The program starts with
`serverStat = 0`, which is not `STATE_INIT`. When `srv.Serve` returns without a
shutdown and no connection is outstanding, line 177 takes the state from
`RUNNING` straight to `TERMINATE`. And when that happens while the handler
stands between the guard (line 205) and the assignment (line 208) of
`shutDown`, the assignment then takes the state from `TERMINATE` to
`SHUTTING_DOWN`. -/
theorem lifecycle_linear_counterexample :
    Machine.initial.stat = 0 ∧ Machine.initial.stat ≠ STATE_INIT ∧
      ∃ m1 m2 m3,
        Machine.exec sampleServer ["/bin/srv"] toRaceBeforeTerminate Machine.initial
          = some m1 ∧
        m1.stat = STATE_RUNNING ∧
        Machine.step sampleServer ["/bin/srv"] (.run sampleEnv) m1 = some m2 ∧
        m2.stat = STATE_TERMINATE ∧
        Machine.step sampleServer ["/bin/srv"] (.handler none) m2 = some m3 ∧
        m3.stat = STATE_SHUTTING_DOWN :=
  ⟨rfl, by decide, _, _, _, rfl, rfl, rfl, rfl, rfl, rfl⟩

/-- Claim C10, amended: let `serverStat` hold `v0` before `Run`, where `v0` is
`STATE_INIT` or the unset value `0`, and let the process run by the statements
of `Run`, of the signal handler (`shutDown` and `forkServer`), of the
connection counter and of the watchdogs, interleaved in any order. Every
reachable value is `v0`, `RUNNING`, `SHUTTING_DOWN` or `TERMINATE`, and is `v0`
exactly until `Run` executes line 157. Every change out of `v0`, `RUNNING` or
`SHUTTING_DOWN` is one of `v0 → RUNNING`, `RUNNING → SHUTTING_DOWN`,
`SHUTTING_DOWN → TERMINATE`, `RUNNING → TERMINATE`. Once the value is
`SHUTTING_DOWN` or `TERMINATE` it is one of these two ever after; in
particular `SHUTTING_DOWN` is never followed by `RUNNING`. -/
theorem lifecycle_forward (srv : FoolServer) (osArgs : List String) (v0 : Int)
    (hv : v0 = 0 ∨ v0 = STATE_INIT) (ls : List Label) (m : Machine)
    (h : Machine.exec srv osArgs ls (Machine.startingAt v0) = some m) :
    (m.stat = v0 ∨ m.stat = STATE_RUNNING ∨ m.stat = STATE_SHUTTING_DOWN ∨
        m.stat = STATE_TERMINATE) ∧
      (m.stat = v0 ↔ (m.sys.run = RunPc.idle ∨ m.sys.run = RunPc.started)) ∧
      (∀ l m', Machine.step srv osArgs l m = some m' → m.stat ≠ STATE_TERMINATE →
        Allowed v0 m.stat m'.stat) ∧
      (∀ ls' m', Machine.exec srv osArgs ls' m = some m' →
        (m.stat = STATE_SHUTTING_DOWN ∨ m.stat = STATE_TERMINATE) →
        (m'.stat = STATE_SHUTTING_DOWN ∨ m'.stat = STATE_TERMINATE) ∧
          m'.stat ≠ STATE_RUNNING) := by
  have h0 : LifeInv v0 (Machine.startingAt v0).sys.run.phase (Machine.startingAt v0).handler
      (Machine.startingAt v0).stat := Or.inl ⟨rfl, rfl, nofun⟩
  obtain ⟨hI, -⟩ := exec_life srv osArgs v0 hv ls _ m h0 h
  have hv2 : v0 ≠ STATE_RUNNING ∧ v0 ≠ STATE_SHUTTING_DOWN ∧ v0 ≠ STATE_TERMINATE := by
    rcases hv with rfl | rfl <;> decide
  refine ⟨?_, ?_, fun l m' hs => (step_life srv osArgs v0 hv l m m' hI hs).2.1,
    fun ls' m' he hc => ?_⟩
  · rcases hI with ⟨-, ha, -⟩ | ⟨-, ha | ⟨ha, -⟩⟩ | ⟨-, ha | ⟨ha, -⟩ | ha⟩
    · exact Or.inl ha
    · exact Or.inr (Or.inl ha)
    · exact Or.inr (Or.inr (Or.inl ha))
    · exact Or.inr (Or.inl ha)
    · exact Or.inr (Or.inr (Or.inl ha))
    · exact Or.inr (Or.inr (Or.inr ha))
  · rw [← phase_zero_iff]
    constructor
    · intro he
      rcases hI with ⟨h0, -, -⟩ | ⟨-, ha | ⟨ha, -⟩⟩ | ⟨-, ha | ⟨ha, -⟩ | ha⟩
      · exact h0
      all_goals
        rw [he] at ha
        first
          | exact absurd ha hv2.1
          | exact absurd ha hv2.2.1
          | exact absurd ha hv2.2.2
    · intro hp
      rcases hI with ⟨-, ha, -⟩ | ⟨h1, -⟩ | ⟨h2, -⟩
      · exact ha
      · rw [hp] at h1; exact absurd h1 (by decide)
      · rw [hp] at h2; exact absurd h2 (by decide)
  · obtain ⟨-, e2⟩ := exec_life srv osArgs v0 hv ls' m m' hI he
    refine ⟨e2 hc, fun hr => ?_⟩
    rcases e2 hc with h1 | h1 <;> rw [h1] at hr <;> exact absurd hr (by decide)

/-- Claim C10, instance: from the real initial state, after `Run` has executed
line 157 and the handler has received `SIGTERM` and executed line 208, the
state is `SHUTTING_DOWN`; every action changes it in an allowed way, and it is
never `RUNNING` again. -/
theorem lifecycle_forward_witness :
    ∃ m, Machine.exec sampleServer ["/bin/srv"]
        [.run sampleEnv, .run sampleEnv, .signal Signal.SIGTERM none, .handler none]
        (Machine.startingAt 0) = some m ∧
      m.stat = STATE_SHUTTING_DOWN ∧
      (∀ l m', Machine.step sampleServer ["/bin/srv"] l m = some m' →
        m.stat ≠ STATE_TERMINATE → Allowed 0 m.stat m'.stat) ∧
      (∀ ls' m', Machine.exec sampleServer ["/bin/srv"] ls' m = some m' →
        m'.stat ≠ STATE_RUNNING) :=
  ⟨_, rfl, rfl,
    (lifecycle_forward sampleServer ["/bin/srv"] 0 (Or.inl rfl)
      [.run sampleEnv, .run sampleEnv, .signal Signal.SIGTERM none, .handler none] _ rfl).2.2.1,
    fun ls' m' he =>
      ((lifecycle_forward sampleServer ["/bin/srv"] 0 (Or.inl rfl)
        [.run sampleEnv, .run sampleEnv, .signal Signal.SIGTERM none, .handler none] _
        rfl).2.2.2 ls' m' he (Or.inl rfl)).2⟩

end Foolgo
